import Mathlib

/-!
Shallow embedding of the crawl-orchestration core of `crawler.py`
(classes `StatisticsCollector` and `WebCrawler`).

Modelling conventions:
* Python strings are `List Char`; Python byte counts and status codes are `Nat`.
* A Python `set` is a `List` kept duplicate-free by inserting only absent
  elements (`pyInsert`); `len` is `List.length`.
* A Python `collections.Counter` is an association list `PyCounter`.
* Lock-protected regions of the Python code are single atomic steps, and the
  worker pool is serialised: the step relation below executes one full loop
  iteration of `crawl_worker`.  This is one admissible interleaving of the
  threaded program, so a property refuted here is refuted for the program.
* The HTTP transport and the HTML link extractor are external collaborators;
  they enter the model as oracles `Config.fetch` and `Config.links`.
-/

namespace Crawler

/-- A URL, modelled as its character string. -/
abbrev Url := List Char

/-- Model of `urllib.parse.urldefrag`, first component: the part of the URL before the
first `#`. -/
def defrag (u : Url) : Url := u.takeWhile (fun c => c ≠ '#')

/-- Helper for `netloc`: drop characters up to and including the first
`://` separator; `none` when the URL has no such separator. -/
def dropThroughSep : List Char → Option (List Char)
  | ':' :: '/' :: '/' :: rest => some rest
  | _ :: rest => dropThroughSep rest
  | [] => none

/-- Model of `urllib.parse.urlparse(u).netloc` for URLs of the shape
`scheme://authority...` (the only shape the crawler enqueues: the seed and
links filtered by `startswith('http')`): the substring after the first `://`
up to the first `/`, `?` or `#`. -/
def netloc (u : Url) : Url :=
  match dropThroughSep u with
  | some rest => rest.takeWhile (fun c => c ≠ '/' && c ≠ '?' && c ≠ '#')
  | none => []

/-- Python `set.add` on the duplicate-free-list model of a set. -/
def pyInsert (s : List Url) (u : Url) : List Url :=
  if u ∈ s then s else u :: s

/-- Model of `collections.Counter` keyed by `α`: an association list of key/count. -/
abbrev PyCounter (α : Type) := List (α × Nat)

/-- Model of `counter[k] += 1`. -/
def incrC {α : Type} [DecidableEq α] : PyCounter α → α → PyCounter α
  | [], k => [(k, 1)]
  | (k', n) :: rest, k =>
    if k = k' then (k', n + 1) :: rest else (k', n) :: incrC rest k

/-- Sum of all counts of a counter. -/
def totalCount {α : Type} (c : PyCounter α) : Nat :=
  (List.map Prod.snd c).sum

/-- The five `file_sizes` buckets of `StatisticsCollector.__init__`
(`< 1KB`, `1KB ~ <10KB`, `10KB ~ <100KB`, `100KB ~ <1MB`, `>= 1MB`). -/
structure FileSizes where
  lt1K : Nat
  k1to10 : Nat
  k10to100 : Nat
  k100to1M : Nat
  ge1M : Nat
deriving DecidableEq

def initFileSizes : FileSizes := ⟨0, 0, 0, 0, 0⟩

/-- Sum of the five bucket counts. -/
def sumBuckets (fs : FileSizes) : Nat :=
  fs.lt1K + fs.k1to10 + fs.k10to100 + fs.k100to1M + fs.ge1M

/-- The size categorisation of `add_successful_visit`.  The Python code
computes `size_kb = size / 1024` (exact float division of a byte count) and
compares against `1`, `10`, `100`, `1024`; for a natural byte count these
comparisons are exactly `size < 1024`, `size < 10240`, `size < 102400`,
`size < 1048576`. -/
def bumpBucket (fs : FileSizes) (size : Nat) : FileSizes :=
  if size < 1024 then { fs with lt1K := fs.lt1K + 1 }
  else if size < 10240 then { fs with k1to10 := fs.k1to10 + 1 }
  else if size < 102400 then { fs with k10to100 := fs.k10to100 + 1 }
  else if size < 1048576 then { fs with k100to1M := fs.k100to1M + 1 }
  else { fs with ge1M := fs.ge1M + 1 }

/-- Model of `content_type.split(';')[0].strip()`. -/
def cleanContentType (ct : List Char) : List Char :=
  (((ct.takeWhile (fun c => c ≠ ';')).dropWhile Char.isWhitespace).reverse.dropWhile
      Char.isWhitespace).reverse

/-- The mutable state of `StatisticsCollector`. -/
structure Stats where
  fetch_attempts : List (Url × Nat)
  successful_visits : List (Url × Nat × Nat × List Char)
  discovered_urls : List (Url × List Char)
  status_codes : PyCounter Nat
  file_sizes : FileSizes
  content_types : PyCounter (List Char)
  unique_urls_extracted : List Url
  unique_urls_within_site : List Url
  unique_urls_outside_site : List Url
  visited_urls : List Url

def initStats : Stats :=
  { fetch_attempts := []
    successful_visits := []
    discovered_urls := []
    status_codes := ([] : PyCounter Nat)
    file_sizes := initFileSizes
    content_types := ([] : PyCounter (List Char))
    unique_urls_extracted := []
    unique_urls_within_site := []
    unique_urls_outside_site := []
    visited_urls := [] }

/-- Model of `StatisticsCollector.add_fetch_attempt`. -/
def add_fetch_attempt (s : Stats) (url : Url) (status_code : Nat) : Stats :=
  { s with
    fetch_attempts := s.fetch_attempts ++ [(url, status_code)]
    status_codes := incrC s.status_codes status_code }

/-- Model of `StatisticsCollector.add_successful_visit`. -/
def add_successful_visit (s : Stats) (url : Url) (size : Nat) (outlinks : Nat)
    (content_type : List Char) : Stats :=
  let c := cleanContentType content_type
  { s with
    successful_visits := s.successful_visits ++ [(url, size, outlinks, c)]
    content_types := incrC s.content_types c
    visited_urls := pyInsert s.visited_urls url
    file_sizes := bumpBucket s.file_sizes size }

/-- Model of `StatisticsCollector.add_discovered_url`. -/
def add_discovered_url (s : Stats) (url : Url) (is_within_site : Bool) : Stats :=
  { s with
    discovered_urls :=
      s.discovered_urls ++
        [(url, if is_within_site then "OK".toList else "N_OK".toList)]
    unique_urls_extracted := pyInsert s.unique_urls_extracted url
    unique_urls_within_site :=
      if is_within_site then pyInsert s.unique_urls_within_site url
      else s.unique_urls_within_site
    unique_urls_outside_site :=
      if is_within_site then s.unique_urls_outside_site
      else pyInsert s.unique_urls_outside_site url }

/-- Model of `StatisticsCollector.is_visited`. -/
def is_visited (s : Stats) (url : Url) : Bool :=
  decide (url ∈ s.visited_urls)

/-- The dictionary returned by `StatisticsCollector.get_statistics`. -/
structure Snapshot where
  fetch_attempts : Nat
  fetches_succeeded : Nat
  fetches_failed : Nat
  total_urls_extracted : Nat
  unique_urls_extracted : Nat
  unique_urls_within_site : Nat
  unique_urls_outside_site : Nat
  status_codes : PyCounter Nat
  file_sizes : FileSizes
  content_types : PyCounter (List Char)
deriving DecidableEq

/-- Model of `StatisticsCollector.get_statistics`: a derived read of the collector
state; the Python method mutates nothing. -/
def get_statistics (s : Stats) : Snapshot :=
  let succeeded :=
    (s.fetch_attempts.filter (fun p => 200 ≤ p.2 && p.2 < 300)).length
  { fetch_attempts := s.fetch_attempts.length
    fetches_succeeded := succeeded
    fetches_failed := s.fetch_attempts.length - succeeded
    total_urls_extracted := s.discovered_urls.length
    unique_urls_extracted := s.unique_urls_extracted.length
    unique_urls_within_site := s.unique_urls_within_site.length
    unique_urls_outside_site := s.unique_urls_outside_site.length
    status_codes := s.status_codes
    file_sizes := s.file_sizes
    content_types := s.content_types }

/-- Model of `get_statistics` as a state transformer: the method acquires the lock,
computes the snapshot, performs no writes, and returns. -/
def get_statisticsM (s : Stats) : Snapshot × Stats :=
  (get_statistics s, s)

/-! ### Robots policy (external collaborator)

`WebCrawler.__init__` builds a `urllib.robotparser.RobotFileParser`, calls
`read()` inside `try/except`, and later consults `can_fetch`.  The parser
state and the behaviour of `read`/`can_fetch` below are modelled from
CPython's `urllib/robotparser.py`. -/

/-- The state of a `RobotFileParser` relevant to `can_fetch`: the
`disallow_all` / `allow_all` flags, whether `last_checked` has been set
(it is set by `parse`, never by the error branches of `read`), and the
decision of the parsed rule set for the crawler's user agent. -/
structure RobotsState where
  disallow_all : Bool
  allow_all : Bool
  last_checked : Bool
  rules : Url → Bool

/-- Model of `RobotFileParser.can_fetch`: honours `disallow_all`/`allow_all` first and
returns `False` whenever `last_checked` was never set. -/
def canFetch (r : RobotsState) (u : Url) : Bool :=
  if r.disallow_all then false
  else if r.allow_all then true
  else if !r.last_checked then false
  else r.rules u

/-- The possible outcomes of `RobotFileParser.read()` for the crawler:
a successful download+parse, an HTTP error status (absorbed inside `read`),
or an exception (connection refused, DNS failure, TLS error, ...) that
propagates out of `read` into the crawler's `except` branch. -/
inductive RobotsReadOutcome where
  | ok (rules : Url → Bool)
  | httpError (code : Nat)
  | failure

/-- The parser state after `WebCrawler.__init__` ran its
`try: self.robot_parser.read() except: ...` block, per read outcome.
On `ok`, `parse` sets `last_checked`; on an HTTP error, `read` sets
`disallow_all` for 401/403 and `allow_all` for other 4xx but never
`last_checked`; on `failure` the crawler catches the exception and the
parser keeps its virgin state. -/
def loadRobots : RobotsReadOutcome → RobotsState
  | .ok rules => ⟨false, false, true, rules⟩
  | .httpError code =>
    ⟨code == 401 || code == 403,
     (decide (400 ≤ code) && decide (code < 500)) && !(code == 401 || code == 403),
     false, fun _ => false⟩
  | .failure => ⟨false, false, false, fun _ => false⟩

/-! ### URL filters of `WebCrawler` -/

/-- The alternatives of the `excluded_extensions` regex
`.*\.(css|js|...|iso)$` compiled with `re.IGNORECASE`. -/
def excludedExtensionList : List (List Char) :=
  (["css", "js", "json", "xml", "bmp", "mp3", "mp4", "wav", "avi", "mov",
    "mpeg", "ram", "m4v", "wmv", "rm", "smil", "swf", "wma", "zip", "rar",
    "gz", "tar", "7z", "exe", "bin", "dmg", "iso"].map String.toList)

/-- Model of `self.excluded_extensions.match(url)` for newline-free URLs: the URL,
case-insensitively, ends in a dot followed by one of the listed extensions. -/
def hasExcludedExtension (u : Url) : Bool :=
  excludedExtensionList.any
    (fun e => ('.' :: e).isSuffixOf (u.map Char.toLower))

/-- Model of `WebCrawler.is_valid_url`: strips the fragment, then rejects
already-visited URLs, excluded extensions, and robots-disallowed URLs,
in that order. -/
def is_valid_url (robots : RobotsState) (stats : Stats) (url : Url) : Bool :=
  let u := defrag url
  if is_visited stats u then false
  else if hasExcludedExtension u then false
  else if !canFetch robots u then false
  else true

/-- Model of `WebCrawler.is_within_site`: the URL's netloc equals the configured
domain or ends with `"." + domain`. -/
def is_within_site (domain : Url) (url : Url) : Bool :=
  netloc url == domain || ('.' :: domain).isSuffixOf (netloc url)

/-- The spec-side scope predicate, written from the spec's words: the URL's
host equals the site's domain, or is a subdomain of it (some prefix followed
by a dot before the domain). -/
def isWithinScope_spec (domain : Url) (host : Url) : Prop :=
  host = domain ∨ ∃ p, host = p ++ '.' :: domain

/-- Model of `WebCrawler.allowed_content_types`. -/
def allowedContentTypes : List (List Char) :=
  (["text/html", "application/pdf", "application/msword",
    "application/vnd.openxmlformats-officedocument.wordprocessingml.document",
    "image/gif", "image/jpeg", "image/jpg", "image/png", "image/webp",
    "image/svg+xml"].map String.toList)

/-- Python's substring test `needle in hay`. -/
def pyInStr (needle hay : List Char) : Bool :=
  decide (needle <:+: hay)

/-- Model of `WebCrawler.should_process_content_type`: some allowed type occurs as a
substring of the lower-cased content type. -/
def should_process_content_type (content_type : List Char) : Bool :=
  allowedContentTypes.any
    (fun a => pyInStr a (content_type.map Char.toLower))

/-! ### Fetching -/

/-- Outcome of the external `requests.get` call: a response, or one of the
exception classes distinguished by `fetch_page`. -/
inductive FetchOutcome where
  | success (status : Nat) (body : List Char) (contentTypeHeader : List Char)
  | timeout
  | connectionError
  | otherError

/-- The quadruple returned by `WebCrawler.fetch_page`. -/
structure FetchResult where
  status : Nat
  content : Option (List Char)
  contentType : Option (List Char)
  size : Nat
deriving DecidableEq

/-- Model of `WebCrawler.fetch_page`: every transport outcome is converted into a
status code; `requests.Timeout` becomes 408, `requests.ConnectionError`
becomes 503, and any other exception becomes 500.  No exception escapes. -/
def fetch_page (outcome : FetchOutcome) : FetchResult :=
  match outcome with
  | .success status body hdr =>
    ⟨status, some body, some (cleanContentType hdr), body.length⟩
  | .timeout => ⟨408, none, none, 0⟩
  | .connectionError => ⟨503, none, none, 0⟩
  | .otherError => ⟨500, none, none, 0⟩

/-- Python truthiness of the `content` component (`None` and `b''` are
falsy). -/
def contentTruthy : Option (List Char) → Bool
  | some b => !b.isEmpty
  | none => false

/-! ### The worker loop -/

/-- The configuration of a crawl plus its external collaborators:
`fetch url` is the transport outcome for `url`, and `links url` is the list
of absolute URLs (after `urljoin`) that the HTML parser extracts from the
page at `url`. -/
structure Config where
  seed : Url
  max_pages : Nat
  max_depth : Nat
  robots : RobotsState
  fetch : Url → FetchOutcome
  links : Url → List Url

/-- Model of `self.domain = urlparse(seed_url).netloc`. -/
def Config.domain (cfg : Config) : Url := netloc cfg.seed

/-- Model of `WebCrawler.extract_links` applied to the page at `url`: each href is
made absolute (the oracle), defragmented, and kept only when it starts with
`http`. -/
def extract_links (cfg : Config) (url : Url) : List Url :=
  ((cfg.links url).map defrag).filter (fun l => "http".toList.isPrefixOf l)

/-- Shared crawl state: the queue of `(url, depth)` pairs, the stop flag,
the fetched-page counter, the statistics collector, the worker's local
empty-queue counter, and whether the worker has left its loop. -/
structure CrawlState where
  queue : List (Url × Nat)
  stop_crawling : Bool
  pages_fetched : Nat
  stats : Stats
  empty_queue_count : Nat
  finished : Bool

/-- The state at the start of `start_crawling`: the queue holds the seed at
depth 0. -/
def initState (cfg : Config) : CrawlState :=
  { queue := [(cfg.seed, 0)]
    stop_crawling := false
    pages_fetched := 0
    stats := initStats
    empty_queue_count := 0
    finished := false }

/-- The body of the `for link in outlinks` loop of `crawl_worker`
(lines 350-356): record the discovery, and enqueue the link at `depth + 1`
when it is within the site and not in the visited set. -/
def handleLink (cfg : Config) (depth : Nat) (acc : Stats × List (Url × Nat))
    (link : Url) : Stats × List (Url × Nat) :=
  (add_discovered_url acc.1 link (is_within_site cfg.domain link),
   if is_within_site cfg.domain link
       && !is_visited (add_discovered_url acc.1 link (is_within_site cfg.domain link)) link
   then acc.2 ++ [(link, depth + 1)]
   else acc.2)

/-- Lines 332-359 of `crawl_worker`: fetch the page, record the attempt,
and on a 2xx response with truthy content and an accepted content type,
extract links (HTML only), record discoveries and enqueue in-scope unvisited
links, then record the successful visit. -/
def dispatchFetch (cfg : Config) (url : Url) (depth : Nat)
    (rest : List (Url × Nat)) (stats : Stats) : Stats × List (Url × Nat) :=
  let r := fetch_page (cfg.fetch url)
  let stats := add_fetch_attempt stats url r.status
  if 200 ≤ r.status && r.status < 300 && contentTruthy r.content then
    let ct := r.contentType.getD []
    if should_process_content_type ct then
      let outlinks :=
        if pyInStr "text/html".toList ct then extract_links cfg url else []
      let sq := outlinks.foldl (handleLink cfg depth) (stats, rest)
      (add_successful_visit sq.1 url r.size outlinks.length ct, sq.2)
    else (stats, rest)
  else (stats, rest)

/-- One iteration of the `while not self.stop_crawling` loop of
`crawl_worker`, for the serialised single-worker schedule: loop-top stop
check, budget check, pop (an empty queue bumps the idle counter and may end
the loop), depth check, scope check, validity check, budget re-check under
the fetch lock, then the fetch itself. -/
def step (cfg : Config) (s : CrawlState) : CrawlState :=
  if s.finished then s
  else if s.stop_crawling then { s with finished := true }
  else if cfg.max_pages ≤ s.pages_fetched then
    { s with stop_crawling := true, finished := true }
  else
    match s.queue with
    | [] =>
      if 5 ≤ s.empty_queue_count + 1 && 0 < s.pages_fetched then
        { s with empty_queue_count := s.empty_queue_count + 1, finished := true }
      else { s with empty_queue_count := s.empty_queue_count + 1 }
    | (url, depth) :: rest =>
      if cfg.max_depth < depth then
        { s with queue := rest, empty_queue_count := 0 }
      else if !is_within_site cfg.domain url then
        { s with queue := rest, empty_queue_count := 0 }
      else if !is_valid_url cfg.robots s.stats url then
        { s with queue := rest, empty_queue_count := 0 }
      else if cfg.max_pages ≤ s.pages_fetched then
        { s with queue := rest, empty_queue_count := 0,
                 stop_crawling := true, finished := true }
      else
        let sq := dispatchFetch cfg url depth rest s.stats
        { s with queue := sq.2, empty_queue_count := 0,
                 pages_fetched := s.pages_fetched + 1, stats := sq.1 }

/-- The crawl state after `n` worker-loop iterations. -/
def run (cfg : Config) : Nat → CrawlState
  | 0 => initState cfg
  | n + 1 => step cfg (run cfg n)

/-! ### Recorder-call traces

The serialised sequence of mutating calls reaching a `StatisticsCollector`
(each mutating method holds `self.lock` for its whole body). -/

/-- One mutating call on the collector. -/
inductive StatEvent where
  | fetchA (url : Url) (status_code : Nat)
  | visitE (url : Url) (size : Nat) (outlinks : Nat) (content_type : List Char)
  | discoverE (url : Url) (is_within_site : Bool)

/-- Apply one recorder call. -/
def applyEvent (s : Stats) : StatEvent → Stats
  | .fetchA url code => add_fetch_attempt s url code
  | .visitE url size outlinks ct => add_successful_visit s url size outlinks ct
  | .discoverE url w => add_discovered_url s url w

/-- The collector state after a sequence of recorder calls on a fresh
collector. -/
def applyEvents (es : List StatEvent) : Stats :=
  es.foldl applyEvent initStats

/-! ### Concrete crawl scenarios

Small concrete sites used to evaluate the semantics at specific inputs.
Robots loads successfully and allows everything unless noted. -/

/-- A robots state whose `robots.txt` was downloaded and parsed and allows
every URL. -/
def permissiveRobots : RobotsState := loadRobots (.ok (fun _ => true))

/-- Scenario for the double-fetch analysis: the seed page links to
`/bad` and `/p`; `/p` links to `/bad` again; `/bad` always answers 404. -/
def c1Fetch (u : Url) : FetchOutcome :=
  if u = "http://a.com/bad".toList then .success 404 "e".toList "text/html".toList
  else .success 200 "x".toList "text/html".toList

def c1Links (u : Url) : List Url :=
  if u = "http://a.com/".toList then
    ["http://a.com/bad".toList, "http://a.com/p".toList]
  else if u = "http://a.com/p".toList then ["http://a.com/bad".toList]
  else []

def c1Cfg : Config :=
  { seed := "http://a.com/".toList
    max_pages := 10
    max_depth := 16
    robots := permissiveRobots
    fetch := c1Fetch
    links := c1Links }

/-- Witness scenario for the visited-check: a state whose queue head is a
URL already recorded in the visited set. -/
def w1Cfg : Config :=
  { seed := "http://a.com/".toList
    max_pages := 10
    max_depth := 16
    robots := permissiveRobots
    fetch := fun _ => .timeout
    links := fun _ => [] }

def w1State : CrawlState :=
  { queue := [("http://a.com/x".toList, 0)]
    stop_crawling := false
    pages_fetched := 0
    stats := { initStats with visited_urls := ["http://a.com/x".toList] }
    empty_queue_count := 0
    finished := false }

/-- Witness scenario for the budget/depth claim: an entry deeper than
`max_depth` at the queue head. -/
def w2Cfg : Config :=
  { seed := "http://e.com/".toList
    max_pages := 10
    max_depth := 3
    robots := permissiveRobots
    fetch := fun _ => .success 200 "x".toList "text/html".toList
    links := fun _ => [] }

def w2Deep : CrawlState :=
  { queue := [("http://e.com/deep".toList, 99)]
    stop_crawling := false
    pages_fetched := 0
    stats := initStats
    empty_queue_count := 0
    finished := false }

/-- Scenario for the duplicate-enqueue analysis: two distinct pages `/p1`
and `/p2` both link to `/x`. -/
def c3Fetch (_ : Url) : FetchOutcome :=
  .success 200 "x".toList "text/html".toList

def c3Links (u : Url) : List Url :=
  if u = "http://b.com/".toList then
    ["http://b.com/p1".toList, "http://b.com/p2".toList]
  else if u = "http://b.com/p1".toList then ["http://b.com/x".toList]
  else if u = "http://b.com/p2".toList then ["http://b.com/x".toList]
  else []

def c3Cfg : Config :=
  { seed := "http://b.com/".toList
    max_pages := 10
    max_depth := 16
    robots := permissiveRobots
    fetch := c3Fetch
    links := c3Links }

/-- A crawl whose robots policy failed to load (`read()` raised and the
crawler's `except` branch swallowed the exception), with arbitrary
transport and parser oracles. -/
def deadCfg (fetchO : Url → FetchOutcome) (linksO : Url → List Url) : Config :=
  { seed := "http://d.com/".toList
    max_pages := 10
    max_depth := 16
    robots := loadRobots .failure
    fetch := fetchO
    links := linksO }

/-- Scenario for the termination analysis: the seed answers 404 and the
frontier then stays empty. -/
def c8Cfg : Config :=
  { seed := "http://c.com/".toList
    max_pages := 10
    max_depth := 16
    robots := permissiveRobots
    fetch := fun _ => .success 404 "e".toList "text/html".toList
    links := fun _ => [] }

/-- Witness states for the stop-flag claim: a worker seeing the stop flag,
and a worker at the page budget. -/
def w8Cfg : Config :=
  { seed := "http://w.com/".toList
    max_pages := 3
    max_depth := 2
    robots := permissiveRobots
    fetch := fun _ => .timeout
    links := fun _ => [] }

def w8Stop : CrawlState :=
  { queue := []
    stop_crawling := true
    pages_fetched := 0
    stats := initStats
    empty_queue_count := 0
    finished := false }

def w8Full : CrawlState :=
  { queue := []
    stop_crawling := false
    pages_fetched := 3
    stats := initStats
    empty_queue_count := 0
    finished := false }

/-- Witness scenario for the scope-partition claim: the seed links to one
in-site and one external URL. -/
def w10Cfg : Config :=
  { seed := "http://f.com/".toList
    max_pages := 10
    max_depth := 16
    robots := permissiveRobots
    fetch := fun _ => .success 200 "x".toList "text/html".toList
    links := fun u =>
      if u = "http://f.com/".toList then
        ["http://f.com/in".toList, "http://g.org/out".toList]
      else [] }

/-- The representation invariant behind the scope partition: the two
unique-URL scope sets are exactly the scope-consistent filterings of the
unique extracted set, and no more unique URLs exist than discovery
records. -/
def scopeInv (dom : Url) (st : Stats) : Prop :=
  st.unique_urls_within_site
      = st.unique_urls_extracted.filter (fun u => is_within_site dom u)
  ∧ st.unique_urls_outside_site
      = st.unique_urls_extracted.filter (fun u => !is_within_site dom u)
  ∧ st.unique_urls_extracted.length ≤ st.discovered_urls.length

/-! ### Helper lemmas -/

lemma totalCount_incrC {α : Type} [DecidableEq α] (c : PyCounter α) (k : α) :
    totalCount (incrC c k) = totalCount c + 1 := by
  induction c with
  | nil => rfl
  | cons p rest ih =>
    obtain ⟨k', n⟩ := p
    by_cases h : k = k'
    · simp only [incrC, if_pos h, totalCount, List.map_cons, List.sum_cons]
      omega
    · simp only [incrC, if_neg h, totalCount, List.map_cons, List.sum_cons] at ih ⊢
      omega

lemma sumBuckets_bumpBucket (fs : FileSizes) (size : Nat) :
    sumBuckets (bumpBucket fs size) = sumBuckets fs + 1 := by
  unfold bumpBucket sumBuckets
  split_ifs <;> simp <;> omega

lemma handleLink_fst (cfg : Config) (depth : Nat) (acc : Stats × List (Url × Nat))
    (link : Url) :
    (handleLink cfg depth acc link).1
      = add_discovered_url acc.1 link (is_within_site cfg.domain link) := rfl

lemma add_discovered_url_fetch_attempts (s : Stats) (u : Url) (w : Bool) :
    (add_discovered_url s u w).fetch_attempts = s.fetch_attempts := rfl

lemma add_discovered_url_visited (s : Stats) (u : Url) (w : Bool) :
    (add_discovered_url s u w).visited_urls = s.visited_urls := rfl

lemma foldl_handleLink_fetch_attempts (cfg : Config) (depth : Nat) (L : List Url) :
    ∀ acc : Stats × List (Url × Nat),
      ((L.foldl (handleLink cfg depth) acc).1).fetch_attempts = acc.1.fetch_attempts := by
  induction L with
  | nil => intro acc; rfl
  | cons x t ih =>
    intro acc
    rw [List.foldl_cons, ih, handleLink_fst, add_discovered_url_fetch_attempts]

lemma dispatchFetch_fetch_attempts (cfg : Config) (url : Url) (depth : Nat)
    (rest : List (Url × Nat)) (st : Stats) :
    ((dispatchFetch cfg url depth rest st).1).fetch_attempts
      = st.fetch_attempts ++ [(url, (fetch_page (cfg.fetch url)).status)] := by
  unfold dispatchFetch
  dsimp only
  split
  · split
    · simp only [add_successful_visit, foldl_handleLink_fetch_attempts, add_fetch_attempt]
    · rfl
  · rfl

/-- Every step either leaves the fetch log and the page counter unchanged,
or — only while the counter is below the budget — extends the log by one
record and the counter by one. -/
lemma step_budget_cases (cfg : Config) (s : CrawlState) :
    ((step cfg s).stats.fetch_attempts.length = s.stats.fetch_attempts.length
       ∧ (step cfg s).pages_fetched = s.pages_fetched)
    ∨ (s.pages_fetched < cfg.max_pages
       ∧ (step cfg s).stats.fetch_attempts.length = s.stats.fetch_attempts.length + 1
       ∧ (step cfg s).pages_fetched = s.pages_fetched + 1) := by
  unfold step
  repeat' split
  all_goals
    first
      | exact Or.inl ⟨rfl, rfl⟩
      | (refine Or.inr ⟨by omega, ?_, rfl⟩
         simp [dispatchFetch_fetch_attempts])

/-- Run invariant: the worker appends exactly one fetch record per counter
increment, and the counter never exceeds the budget. -/
lemma run_pages_inv (cfg : Config) (n : Nat) :
    (run cfg n).stats.fetch_attempts.length = (run cfg n).pages_fetched
    ∧ (run cfg n).pages_fetched ≤ cfg.max_pages := by
  induction n with
  | zero => exact ⟨rfl, Nat.zero_le _⟩
  | succ n ih =>
    have h := step_budget_cases cfg (run cfg n)
    simp only [run]
    rcases h with ⟨h1, h2⟩ | ⟨hlt, h1, h2⟩ <;> constructor <;> omega

lemma pyInsert_filter_pos (p : Url → Bool) (l : List Url) (u : Url)
    (h : p u = true) :
    pyInsert (l.filter p) u = (pyInsert l u).filter p := by
  unfold pyInsert
  by_cases hm : u ∈ l
  · rw [if_pos hm, if_pos (List.mem_filter.mpr ⟨hm, h⟩)]
  · rw [if_neg hm, if_neg (fun hc => hm (List.mem_filter.mp hc).1),
      List.filter_cons_of_pos h]

lemma pyInsert_filter_neg (p : Url → Bool) (l : List Url) (u : Url)
    (h : p u = false) :
    (pyInsert l u).filter p = l.filter p := by
  unfold pyInsert
  by_cases hm : u ∈ l
  · rw [if_pos hm]
  · rw [if_neg hm, List.filter_cons_of_neg (by simp [h])]

lemma pyInsert_length_le (l : List Url) (u : Url) :
    (pyInsert l u).length ≤ l.length + 1 := by
  unfold pyInsert
  split <;> simp

lemma length_filter_add_length_filter_not {α : Type} (p : α → Bool) (l : List α) :
    (l.filter p).length + (l.filter (fun a => !p a)).length = l.length := by
  induction l with
  | nil => rfl
  | cons a t ih =>
    cases h : p a <;> simp [List.filter_cons, h] <;> omega

lemma add_discovered_scopeInv (dom : Url) (st : Stats) (u : Url)
    (hInv : scopeInv dom st) :
    scopeInv dom (add_discovered_url st u (is_within_site dom u)) := by
  obtain ⟨h1, h2, h3⟩ := hInv
  have hlen : (pyInsert st.unique_urls_extracted u).length
      ≤ st.discovered_urls.length + 1 := by
    have := pyInsert_length_le st.unique_urls_extracted u
    omega
  unfold scopeInv
  cases hw : is_within_site dom u
  · refine ⟨?_, ?_, ?_⟩
    · show st.unique_urls_within_site
        = (pyInsert st.unique_urls_extracted u).filter
            (fun x => is_within_site dom x)
      rw [h1]
      exact (pyInsert_filter_neg _ _ _ hw).symm
    · show pyInsert st.unique_urls_outside_site u
        = (pyInsert st.unique_urls_extracted u).filter
            (fun x => !is_within_site dom x)
      rw [h2]
      exact pyInsert_filter_pos _ _ _ (by simp [hw])
    · show (pyInsert st.unique_urls_extracted u).length
        ≤ (st.discovered_urls ++ [(u, "N_OK".toList)]).length
      simp only [List.length_append, List.length_cons, List.length_nil]
      omega
  · refine ⟨?_, ?_, ?_⟩
    · show pyInsert st.unique_urls_within_site u
        = (pyInsert st.unique_urls_extracted u).filter
            (fun x => is_within_site dom x)
      rw [h1]
      exact pyInsert_filter_pos _ _ _ hw
    · show st.unique_urls_outside_site
        = (pyInsert st.unique_urls_extracted u).filter
            (fun x => !is_within_site dom x)
      rw [h2]
      exact (pyInsert_filter_neg _ _ _ (by simp [hw])).symm
    · show (pyInsert st.unique_urls_extracted u).length
        ≤ (st.discovered_urls ++ [(u, "OK".toList)]).length
      simp only [List.length_append, List.length_cons, List.length_nil]
      omega

lemma foldl_handleLink_scopeInv (cfg : Config) (depth : Nat) (L : List Url) :
    ∀ acc : Stats × List (Url × Nat), scopeInv cfg.domain acc.1 →
      scopeInv cfg.domain ((L.foldl (handleLink cfg depth) acc).1) := by
  induction L with
  | nil => intro acc h; exact h
  | cons x t ih =>
    intro acc h
    rw [List.foldl_cons]
    exact ih _ (by rw [handleLink_fst]; exact add_discovered_scopeInv _ _ _ h)

lemma add_fetch_scopeInv (dom : Url) (st : Stats) (u : Url) (code : Nat)
    (h : scopeInv dom st) : scopeInv dom (add_fetch_attempt st u code) := h

lemma add_visit_scopeInv (dom : Url) (st : Stats) (u : Url) (size outlinks : Nat)
    (ct : List Char) (h : scopeInv dom st) :
    scopeInv dom (add_successful_visit st u size outlinks ct) := h

lemma dispatchFetch_scopeInv (cfg : Config) (url : Url) (depth : Nat)
    (rest : List (Url × Nat)) (st : Stats) (h : scopeInv cfg.domain st) :
    scopeInv cfg.domain (dispatchFetch cfg url depth rest st).1 := by
  unfold dispatchFetch
  dsimp only
  split
  · split
    · exact add_visit_scopeInv _ _ _ _ _ _
        (foldl_handleLink_scopeInv cfg depth _ _ (add_fetch_scopeInv _ _ _ _ h))
    · exact add_fetch_scopeInv _ _ _ _ h
  · exact add_fetch_scopeInv _ _ _ _ h

lemma step_scopeInv (cfg : Config) (s : CrawlState)
    (h : scopeInv cfg.domain s.stats) : scopeInv cfg.domain (step cfg s).stats := by
  unfold step
  repeat' split
  all_goals first
    | exact h
    | exact dispatchFetch_scopeInv _ _ _ _ _ h

lemma run_scopeInv (cfg : Config) (n : Nat) :
    scopeInv cfg.domain (run cfg n).stats := by
  induction n with
  | zero => exact ⟨rfl, rfl, Nat.le_refl 0⟩
  | succ n ih => exact step_scopeInv cfg (run cfg n) ih

lemma is_valid_url_false_of_failed_robots (stats : Stats) (url : Url) :
    is_valid_url (loadRobots .failure) stats url = false := by
  unfold is_valid_url
  dsimp only
  split_ifs with h1 h2 h3
  · rfl
  · rfl
  · rfl
  · exact absurd rfl h3

/-- With a failed robots load, a crawl never fetches anything, never sets
the stop flag, and never leaves the worker loop. -/
lemma deadRun_inv (fetchO : Url → FetchOutcome) (linksO : Url → List Url)
    (n : Nat) :
    (run (deadCfg fetchO linksO) n).stats.fetch_attempts = []
    ∧ (run (deadCfg fetchO linksO) n).pages_fetched = 0
    ∧ (run (deadCfg fetchO linksO) n).stop_crawling = false
    ∧ (run (deadCfg fetchO linksO) n).finished = false := by
  induction n with
  | zero => exact ⟨rfl, rfl, rfl, rfl⟩
  | succ n ih =>
    obtain ⟨h1, h2, h3, h4⟩ := ih
    simp only [run]
    generalize hgen : run (deadCfg fetchO linksO) n = s at h1 h2 h3 h4
    unfold step
    rw [if_neg (by simp [h4]), if_neg (by simp [h3]),
      if_neg (by simp [deadCfg, h2])]
    rcases _hq : s.queue with _ | ⟨⟨u, d⟩, rest⟩
    · dsimp only
      rw [if_neg (by simp [h2])]
      exact ⟨h1, h2, h3, h4⟩
    · dsimp only
      split_ifs with hd hw hv hb
      · exact ⟨h1, h2, h3, h4⟩
      · exact ⟨h1, h2, h3, h4⟩
      · exact ⟨h1, h2, h3, h4⟩
      · exact absurd (by simp [deadCfg, is_valid_url_false_of_failed_robots]) hv
      · exact absurd (by simp [deadCfg, is_valid_url_false_of_failed_robots]) hv

/-- The two histogram sums track the two record lists through any sequence
of recorder calls. -/
lemma foldl_applyEvent_inv : ∀ (es : List StatEvent) (st : Stats),
    (totalCount st.status_codes = st.fetch_attempts.length
     ∧ sumBuckets st.file_sizes = st.successful_visits.length) →
    (totalCount (es.foldl applyEvent st).status_codes
       = (es.foldl applyEvent st).fetch_attempts.length
     ∧ sumBuckets (es.foldl applyEvent st).file_sizes
       = (es.foldl applyEvent st).successful_visits.length) := by
  intro es
  induction es with
  | nil => intro st h; exact h
  | cons e t ih =>
    intro st h
    obtain ⟨ha, hb⟩ := h
    rw [List.foldl_cons]
    apply ih
    cases e with
    | fetchA url code =>
      constructor
      · show totalCount (incrC st.status_codes code)
          = (st.fetch_attempts ++ [(url, code)]).length
        rw [totalCount_incrC, List.length_append, ha]
        rfl
      · exact hb
    | visitE url size outlinks ct =>
      constructor
      · exact ha
      · show sumBuckets (bumpBucket st.file_sizes size)
          = (st.successful_visits
              ++ [(url, size, outlinks, cleanContentType ct)]).length
        rw [sumBuckets_bumpBucket, List.length_append, hb]
        rfl
    | discoverE url w => exact ⟨ha, hb⟩

/-! ### Claims -/

/-- Claim C1, corrected.  The original claim — each URL yields at most one
FetchRecord per crawl — is false (see the counterexample): the VisitedSet
(`visited_urls`) is populated only by `add_successful_visit`, not at the
enqueue decision or at dispatch.  What does hold is the defensive
pre-dispatch check: a queue entry whose fragment-stripped URL is already in
the VisitedSet is discarded by `is_valid_url` and produces no FetchRecord. -/
theorem visited_url_never_refetched : ∀ (cfg : Config) (s : CrawlState)
    (u : Url) (d : Nat) (rest : List (Url × Nat)),
    s.queue = (u, d) :: rest → defrag u ∈ s.stats.visited_urls →
    (step cfg s).stats.fetch_attempts = s.stats.fetch_attempts := by
  intro cfg s u d rest hq hv
  have hval : is_valid_url cfg.robots s.stats u = false := by
    unfold is_valid_url
    dsimp only
    rw [if_pos (by simpa [is_visited] using hv)]
  unfold step
  split
  · rfl
  split
  · rfl
  split
  · rfl
  rw [hq]
  dsimp only
  split_ifs with h1 h2 h3
  · rfl
  · rfl
  · rfl
  · exact absurd (by simp [hval]) h3

/-- Witness for C1's amended theorem at a concrete state whose queue head
is already visited. -/
theorem visited_url_never_refetched_witness :
    (step w1Cfg w1State).stats.fetch_attempts = w1State.stats.fetch_attempts :=
  visited_url_never_refetched w1Cfg w1State ("http://a.com/x".toList) 0 []
    rfl (by decide)

/-- Counterexample to claim C1 as stated: in the concrete crawl `c1Cfg`,
the URL `http://a.com/bad` (linked from two different pages, and answering
404 so that no successful visit marks it visited) is fetched twice — two
FetchRecords for one URL in one run. -/
theorem double_fetch_counterexample :
    (((run c1Cfg 4).stats.fetch_attempts.map Prod.fst).count
        "http://a.com/bad".toList) = 2 := by
  decide

/-- Claim C2, confirmed: in every run the fetch log never exceeds
`max_pages` (the counter is incremented under the fetch lock with a re-check
before every dispatch), and a step that pops a frontier entry deeper than
`max_depth` discards it without producing any FetchRecord. -/
theorem budget_and_depth_respected :
    (∀ (cfg : Config) (n : Nat),
       (run cfg n).stats.fetch_attempts.length ≤ cfg.max_pages)
    ∧ (∀ (cfg : Config) (s : CrawlState) (u : Url) (d : Nat)
         (rest : List (Url × Nat)), s.queue = (u, d) :: rest →
         cfg.max_depth < d →
         (step cfg s).stats.fetch_attempts = s.stats.fetch_attempts) := by
  constructor
  · intro cfg n
    have h := run_pages_inv cfg n
    omega
  · intro cfg s u d rest hq hd
    unfold step
    split
    · rfl
    split
    · rfl
    split
    · rfl
    rw [hq]
    dsimp only
    rw [if_pos hd]

/-- Witness for C2 at a concrete crawl and a concrete too-deep entry. -/
theorem budget_and_depth_respected_witness :
    ((run w2Cfg 5).stats.fetch_attempts.length ≤ w2Cfg.max_pages)
    ∧ (step w2Cfg w2Deep).stats.fetch_attempts = w2Deep.stats.fetch_attempts :=
  ⟨budget_and_depth_respected.1 w2Cfg 5,
   budget_and_depth_respected.2 w2Cfg w2Deep ("http://e.com/deep".toList) 99 []
     rfl (by decide)⟩

/-- Claim C3, corrected.  The enqueue decision tests membership in the
VisitedSet, but — contrary to the claim — it performs no insertion into the
VisitedSet at all (the set changes only on successful visits), so nothing
prevents the same URL from being enqueued twice.  This theorem captures the
actual behaviour of the enqueue decision (lines 350-356): the link is
appended to the queue at `depth + 1` iff it is within the site and not
visited, and the visited set is unchanged. -/
theorem push_enqueue_decision : ∀ (cfg : Config) (depth : Nat) (st : Stats)
    (q : List (Url × Nat)) (link : Url),
    (handleLink cfg depth (st, q) link).2
      = (if is_within_site cfg.domain link && !is_visited st link
         then q ++ [(link, depth + 1)] else q)
    ∧ (handleLink cfg depth (st, q) link).1.visited_urls = st.visited_urls :=
  fun _ _ _ _ _ => ⟨rfl, rfl⟩

/-- Counterexample to claim C3 as stated: in the concrete crawl `c3Cfg`,
pages `/p1` and `/p2` both link to `/x`, and both discoveries enqueue it —
after three iterations the frontier holds `http://b.com/x` twice. -/
theorem duplicate_enqueue_counterexample :
    (((run c3Cfg 3).queue.map Prod.fst).count "http://b.com/x".toList) = 2 := by
  decide

/-- Claim C4 (code bug).  The claim says a robots-policy load failure makes
the admission filter permissive (fail open).  The code does the opposite:
after a failed `read()` the `RobotFileParser` still has `last_checked`
unset, `can_fetch` then answers `False` for every URL, so `is_valid_url`
rejects every URL — and the crawl, far from proceeding, fetches nothing and
(having fetched nothing) can never satisfy its idle-exit condition or its
budget condition, so no worker ever leaves its loop. -/
theorem robots_failure_fails_closed :
    (∀ (stats : Stats) (url : Url),
       is_valid_url (loadRobots .failure) stats url = false)
    ∧ (∀ (fetchO : Url → FetchOutcome) (linksO : Url → List Url) (n : Nat),
        (run (deadCfg fetchO linksO) n).stats.fetch_attempts = []
        ∧ (run (deadCfg fetchO linksO) n).finished = false) :=
  ⟨is_valid_url_false_of_failed_robots,
   fun fetchO linksO n =>
     ⟨(deadRun_inv fetchO linksO n).1, (deadRun_inv fetchO linksO n).2.2.2⟩⟩

/-- Claim C5, confirmed: `is_within_site` accepts a URL exactly when its
netloc equals the configured site domain or is a subdomain of it (some
prefix followed by a dot, then the domain). -/
theorem within_scope_iff : ∀ (domain url : Url),
    is_within_site domain url = true ↔ isWithinScope_spec domain (netloc url) := by
  intro d u
  unfold is_within_site isWithinScope_spec
  rw [Bool.or_eq_true, beq_iff_eq, List.isSuffixOf_iff_suffix]
  constructor
  · rintro (h | ⟨t, ht⟩)
    · exact Or.inl h
    · exact Or.inr ⟨t, ht.symm⟩
  · rintro (h | ⟨p, hp⟩)
    · exact Or.inl h
    · exact Or.inr ⟨p, hp.symm⟩

/-- Witness for C5 at a concrete subdomain URL. -/
theorem within_scope_iff_witness :
    isWithinScope_spec "a.com".toList (netloc "http://sub.a.com/p".toList) :=
  (within_scope_iff "a.com".toList "http://sub.a.com/p".toList).mp (by decide)

/-- Claim C6, confirmed: `fetch_page` is a total function into results that
always carry a status code — 408 for a timeout, 503 for a connection
failure, 500 for any other error, and the transported status on success —
and each dispatched fetch appends exactly one FetchRecord: in every run the
fetch log's length equals the count of dispatched fetches. -/
theorem fetch_outcome_always_status :
    (fetch_page .timeout).status = 408
    ∧ (fetch_page .connectionError).status = 503
    ∧ (fetch_page .otherError).status = 500
    ∧ (∀ (st : Nat) (body hdr : List Char),
        fetch_page (.success st body hdr)
          = ⟨st, some body, some (cleanContentType hdr), body.length⟩)
    ∧ (∀ (cfg : Config) (n : Nat),
        (run cfg n).stats.fetch_attempts.length = (run cfg n).pages_fetched) :=
  ⟨rfl, rfl, rfl, fun _ _ _ => rfl, fun cfg n => (run_pages_inv cfg n).1⟩

/-- Claim C7, confirmed: after any sequence of recorder calls the status
histogram totals the FetchRecords and the size buckets total the
VisitRecords; each visit lands in exactly the one bucket matching the
stated boundaries, with 1024 bytes in `1KB ~ <10KB` and 1048576 bytes in
`>= 1MB`. -/
theorem histogram_consistency :
    (∀ es : List StatEvent,
       totalCount (applyEvents es).status_codes
           = (applyEvents es).fetch_attempts.length
       ∧ sumBuckets (applyEvents es).file_sizes
           = (applyEvents es).successful_visits.length)
    ∧ (∀ (fs : FileSizes) (size : Nat),
        (bumpBucket fs size).lt1K
            = fs.lt1K + (if size < 1024 then 1 else 0)
        ∧ (bumpBucket fs size).k1to10
            = fs.k1to10 + (if 1024 ≤ size ∧ size < 10240 then 1 else 0)
        ∧ (bumpBucket fs size).k10to100
            = fs.k10to100 + (if 10240 ≤ size ∧ size < 102400 then 1 else 0)
        ∧ (bumpBucket fs size).k100to1M
            = fs.k100to1M + (if 102400 ≤ size ∧ size < 1048576 then 1 else 0)
        ∧ (bumpBucket fs size).ge1M
            = fs.ge1M + (if 1048576 ≤ size then 1 else 0))
    ∧ (∀ fs : FileSizes, bumpBucket fs 1024 = { fs with k1to10 := fs.k1to10 + 1 })
    ∧ (∀ fs : FileSizes, bumpBucket fs 1048576 = { fs with ge1M := fs.ge1M + 1 }) := by
  refine ⟨?_, ?_, fun _ => rfl, fun _ => rfl⟩
  · intro es
    exact foldl_applyEvent_inv es initStats ⟨rfl, rfl⟩
  · intro fs size
    unfold bumpBucket
    refine ⟨?_, ?_, ?_, ?_, ?_⟩ <;> split_ifs <;> first | rfl | omega

/-- Claim C8, corrected.  The stop flag is indeed checked at loop top, but
it is set only when the fetched-page counter has reached `max_pages`
(condition (a)); the idle-exit of a worker after five consecutive empty
polls (condition (b)) merely breaks out of that worker's loop and does not
set the flag — and it is gated on pages having been *dispatched*
(`pages_fetched > 0`), not on a *successful* fetch. -/
theorem stop_flag_only_budget :
    (∀ (cfg : Config) (s : CrawlState), s.finished = false →
       s.stop_crawling = true → step cfg s = { s with finished := true })
    ∧ (∀ (cfg : Config) (s : CrawlState), (step cfg s).stop_crawling = true →
       s.stop_crawling = true ∨ cfg.max_pages ≤ s.pages_fetched) := by
  constructor
  · intro cfg s hf hs
    unfold step
    rw [if_neg (by simp [hf]), if_pos hs]
  · intro cfg s h
    unfold step at h
    repeat' split at h
    all_goals first
      | exact Or.inl h
      | exact Or.inr (by assumption)

/-- Witness for C8's amended theorem: a worker that sees the flag raised
exits immediately, and a worker at the budget may raise the flag. -/
theorem stop_flag_only_budget_witness :
    step w8Cfg w8Stop = { w8Stop with finished := true }
    ∧ (w8Full.stop_crawling = true ∨ w8Cfg.max_pages ≤ w8Full.pages_fetched) :=
  ⟨stop_flag_only_budget.1 w8Cfg w8Stop rfl rfl,
   stop_flag_only_budget.2 w8Cfg w8Full (by decide)⟩

/-- Counterexample to claim C8 as stated: in the concrete crawl `c8Cfg`
(whose seed answers 404 and whose frontier then stays empty), the worker
exits after five consecutive empty polls — with one dispatched fetch but
zero successful fetches — and the stop flag is still unset, so the idle
exit (condition (b)) does not set the global stop flag. -/
theorem idle_exit_without_stop_flag :
    (run c8Cfg 6).finished = true
    ∧ (run c8Cfg 6).stop_crawling = false
    ∧ (run c8Cfg 6).pages_fetched = 1
    ∧ (get_statistics (run c8Cfg 6).stats).fetches_succeeded = 0 := by
  decide

/-- Claim C9, confirmed: `get_statistics` performs no writes (its state
transformer returns the state unchanged), so two snapshot calls with no
intervening recorder call return identical snapshots. -/
theorem snapshot_idempotent : ∀ s : Stats,
    (get_statisticsM s).2 = s
    ∧ (get_statisticsM (get_statisticsM s).2).1 = (get_statisticsM s).1 :=
  fun _ => ⟨rfl, rfl⟩

/-- Claim C10, confirmed: scope classification inside the worker is the
pure function `is_within_site`, so in every run the unique within-site and
outside-site URL sets are disjoint, their union is the unique extracted
set, the snapshot counts satisfy `unique_urls_extracted =
unique_urls_within_site + unique_urls_outside_site`, and
`total_urls_extracted ≥ unique_urls_extracted`. -/
theorem scope_partition : ∀ (cfg : Config) (n : Nat),
    (∀ u : Url, u ∈ (run cfg n).stats.unique_urls_within_site →
       u ∈ (run cfg n).stats.unique_urls_outside_site → False)
    ∧ (∀ u : Url, u ∈ (run cfg n).stats.unique_urls_extracted ↔
        (u ∈ (run cfg n).stats.unique_urls_within_site
         ∨ u ∈ (run cfg n).stats.unique_urls_outside_site))
    ∧ (get_statistics (run cfg n).stats).unique_urls_extracted
        = (get_statistics (run cfg n).stats).unique_urls_within_site
          + (get_statistics (run cfg n).stats).unique_urls_outside_site
    ∧ (get_statistics (run cfg n).stats).unique_urls_extracted
        ≤ (get_statistics (run cfg n).stats).total_urls_extracted := by
  intro cfg n
  obtain ⟨h1, h2, h3⟩ := run_scopeInv cfg n
  refine ⟨?_, ?_, ?_, ?_⟩
  · intro u hw ho
    rw [h1] at hw
    rw [h2] at ho
    have hwp := (List.mem_filter.mp hw).2
    have hop := (List.mem_filter.mp ho).2
    simp_all
  · intro u
    constructor
    · intro hu
      cases hcase : is_within_site cfg.domain u
      · right
        rw [h2]
        exact List.mem_filter.mpr ⟨hu, by simp [hcase]⟩
      · left
        rw [h1]
        exact List.mem_filter.mpr ⟨hu, hcase⟩
    · intro hu
      rcases hu with hu | hu
      · rw [h1] at hu
        exact (List.mem_filter.mp hu).1
      · rw [h2] at hu
        exact (List.mem_filter.mp hu).1
  · show (run cfg n).stats.unique_urls_extracted.length
      = (run cfg n).stats.unique_urls_within_site.length
        + (run cfg n).stats.unique_urls_outside_site.length
    rw [h1, h2, length_filter_add_length_filter_not]
  · show (run cfg n).stats.unique_urls_extracted.length
      ≤ (run cfg n).stats.discovered_urls.length
    exact h3

/-- Witness for C10 at a concrete crawl with one in-site and one external
link. -/
theorem scope_partition_witness :
    ("http://f.com/in".toList ∈ (run w10Cfg 2).stats.unique_urls_within_site
      ∨ "http://f.com/in".toList ∈ (run w10Cfg 2).stats.unique_urls_outside_site)
    ∧ (get_statistics (run w10Cfg 2).stats).unique_urls_extracted
        = (get_statistics (run w10Cfg 2).stats).unique_urls_within_site
          + (get_statistics (run w10Cfg 2).stats).unique_urls_outside_site :=
  ⟨((scope_partition w10Cfg 2).2.1 ("http://f.com/in".toList)).mp (by decide),
   (scope_partition w10Cfg 2).2.2.1⟩

end Crawler
